import Mathlib

/-!
Verification of the organization-scoped data-access and campaign-composition
layer of the phishnet application.

The embedding models the storage layer (the MemStorage and DatabaseStorage
classes) and the relevant HTTP route handlers (campaign creation and CSV
target import).  JavaScript `Map<number, X>` tables are represented by the
list of their values: every create operation stamps the entity's `id` field
with the map key, so the key is recoverable from the value.  `Date` values
are represented by natural-number clock readings passed explicitly to each
operation (`now`), mirroring the `new Date()` calls in the source.
-/

namespace PhishNet

/-- Organization entity, from the organizations table of the schema. -/
structure Organization where
  id : Nat
  name : String
  createdAt : Nat
  updatedAt : Nat
deriving DecidableEq, Repr

/-- User entity, from the users table of the schema. -/
structure User where
  id : Nat
  email : String
  password : String
  firstName : String
  lastName : String
  isAdmin : Bool
  organizationId : Nat
  organizationName : String
  createdAt : Nat
  updatedAt : Nat
deriving DecidableEq, Repr

/-- Group entity, from the groups table of the schema. -/
structure Group where
  id : Nat
  name : String
  description : Option String
  organizationId : Nat
  createdAt : Nat
  updatedAt : Nat
deriving DecidableEq, Repr

/-- Target entity, from the targets table of the schema. -/
structure Target where
  id : Nat
  firstName : String
  lastName : String
  email : String
  position : Option String
  groupId : Nat
  organizationId : Nat
  createdAt : Nat
  updatedAt : Nat
deriving DecidableEq, Repr

/-- SMTP profile entity, from the smtp_profiles table of the schema. -/
structure SmtpProfile where
  id : Nat
  name : String
  host : String
  port : Nat
  username : String
  password : String
  fromName : String
  fromEmail : String
  organizationId : Nat
  createdAt : Nat
  updatedAt : Nat
deriving DecidableEq, Repr

/-- Email template entity, from the email_templates table of the schema. -/
structure EmailTemplate where
  id : Nat
  name : String
  subject : String
  htmlContent : String
  textContent : Option String
  senderName : String
  senderEmail : String
  organizationId : Nat
  createdById : Nat
  createdAt : Nat
  updatedAt : Nat
deriving DecidableEq, Repr

/-- Landing page entity, from the landing_pages table of the schema. -/
structure LandingPage where
  id : Nat
  name : String
  description : Option String
  htmlContent : String
  redirectUrl : Option String
  pageType : String
  thumbnail : Option String
  organizationId : Nat
  createdById : Nat
  createdAt : Nat
  updatedAt : Nat
deriving DecidableEq, Repr

/-- Campaign entity, from the campaigns table of the schema. -/
structure Campaign where
  id : Nat
  name : String
  status : String
  targetGroupId : Nat
  smtpProfileId : Nat
  emailTemplateId : Nat
  landingPageId : Nat
  scheduledAt : Option Nat
  endDate : Option Nat
  createdById : Nat
  organizationId : Nat
  createdAt : Nat
  updatedAt : Nat
deriving DecidableEq, Repr

/-- Campaign result entity, from the campaign_results table of the schema. -/
structure CampaignResult where
  id : Nat
  campaignId : Nat
  targetId : Nat
  sent : Bool
  sentAt : Option Nat
  opened : Bool
  openedAt : Option Nat
  clicked : Bool
  clickedAt : Option Nat
  submitted : Bool
  submittedAt : Option Nat
  submittedData : Option String
  organizationId : Nat
  createdAt : Nat
  updatedAt : Nat
deriving DecidableEq, Repr

/-- Insert shape for users (insertUserSchema of the schema module). -/
structure InsertUser where
  email : String
  password : String
  firstName : String
  lastName : String
  isAdmin : Bool
  organizationName : String
deriving DecidableEq, Repr

/-- Insert shape for groups (insertGroupSchema). -/
structure InsertGroup where
  name : String
  description : Option String
deriving DecidableEq, Repr

/-- Insert shape for targets (insertTargetSchema): firstName, lastName and
email are required string columns, position is nullable. -/
structure InsertTarget where
  firstName : String
  lastName : String
  email : String
  position : Option String
deriving DecidableEq, Repr

/-- Insert shape for SMTP profiles (insertSmtpProfileSchema). -/
structure InsertSmtpProfile where
  name : String
  host : String
  port : Nat
  username : String
  password : String
  fromName : String
  fromEmail : String
deriving DecidableEq, Repr

/-- Insert shape for email templates (insertEmailTemplateSchema). -/
structure InsertEmailTemplate where
  name : String
  subject : String
  htmlContent : String
  textContent : Option String
  senderName : String
  senderEmail : String
deriving DecidableEq, Repr

/-- Insert shape for landing pages (insertLandingPageSchema). -/
structure InsertLandingPage where
  name : String
  description : Option String
  htmlContent : String
  redirectUrl : Option String
  pageType : String
  thumbnail : Option String
deriving DecidableEq, Repr

/-- Insert shape for campaigns (insertCampaignSchema). -/
structure InsertCampaign where
  name : String
  targetGroupId : Nat
  smtpProfileId : Nat
  emailTemplateId : Nat
  landingPageId : Nat
  scheduledAt : Option Nat
  endDate : Option Nat
deriving DecidableEq, Repr

/-- The state of the store: one table per entity plus the shared
auto-increment counter of MemStorage. -/
structure MemState where
  users : List User
  organizations : List Organization
  groups : List Group
  targets : List Target
  smtpProfiles : List SmtpProfile
  emailTemplates : List EmailTemplate
  landingPages : List LandingPage
  campaigns : List Campaign
  campaignResults : List CampaignResult
  currentId : Nat
deriving DecidableEq, Repr

/-- The state of a freshly constructed MemStorage: empty maps, counter 1. -/
def emptyState : MemState :=
  { users := [], organizations := [], groups := [], targets := []
    smtpProfiles := [], emailTemplates := [], landingPages := []
    campaigns := [], campaignResults := [], currentId := 1 }

/-- The toLowerCase operation of JavaScript strings, modelled as
character-wise lowercasing over the underlying character list (written
structurally so that it evaluates inside the kernel). -/
def strToLower (s : String) : String := String.mk (s.data.map Char.toLower)

namespace Mem

/-- MemStorage.getUser: map lookup by id. -/
def getUser (s : MemState) (id : Nat) : Option User :=
  s.users.find? (fun u => u.id == id)

/-- MemStorage.createUser: assigns currentId, stamps timestamps, inserts. -/
def createUser (s : MemState) (organizationId : Nat) (u : InsertUser)
    (now : Nat) : User × MemState :=
  let id := s.currentId
  let newUser : User :=
    { id := id, email := u.email, password := u.password
      firstName := u.firstName, lastName := u.lastName
      isAdmin := u.isAdmin, organizationId := organizationId
      organizationName := u.organizationName
      createdAt := now, updatedAt := now }
  (newUser, { s with users := s.users ++ [newUser], currentId := id + 1 })

/-- MemStorage.listUsers: all users of the given organization. -/
def listUsers (s : MemState) (organizationId : Nat) : List User :=
  s.users.filter (fun u => u.organizationId == organizationId)

/-- MemStorage.getOrganization. -/
def getOrganization (s : MemState) (id : Nat) : Option Organization :=
  s.organizations.find? (fun o => o.id == id)

/-- MemStorage.getGroup. -/
def getGroup (s : MemState) (id : Nat) : Option Group :=
  s.groups.find? (fun g => g.id == id)

/-- MemStorage.createGroup. -/
def createGroup (s : MemState) (organizationId : Nat) (g : InsertGroup)
    (now : Nat) : Group × MemState :=
  let id := s.currentId
  let newGroup : Group :=
    { id := id, name := g.name, description := g.description
      organizationId := organizationId, createdAt := now, updatedAt := now }
  (newGroup, { s with groups := s.groups ++ [newGroup], currentId := id + 1 })

/-- MemStorage.deleteGroup: deletes all targets of the group first, then the
group itself; the Boolean reports whether the group key existed. -/
def deleteGroup (s : MemState) (id : Nat) : Bool × MemState :=
  let existed := s.groups.any (fun g => g.id == id)
  (existed,
    { s with targets := s.targets.filter (fun t => !(t.groupId == id))
             groups := s.groups.filter (fun g => !(g.id == id)) })

/-- A Group augmented with its computed target count, the element type
returned by listGroups. -/
structure GroupWithCount where
  group : Group
  targetCount : Nat
deriving DecidableEq, Repr

/-- MemStorage.listGroups: the organization's groups, each augmented with the
number of targets whose groupId matches, computed at read time. -/
def listGroups (s : MemState) (organizationId : Nat) : List GroupWithCount :=
  (s.groups.filter (fun g => g.organizationId == organizationId)).map
    (fun g =>
      { group := g
        targetCount :=
          (s.targets.filter (fun t => t.groupId == g.id)).length })

/-- MemStorage.getTarget. -/
def getTarget (s : MemState) (id : Nat) : Option Target :=
  s.targets.find? (fun t => t.id == id)

/-- MemStorage.createTarget. -/
def createTarget (s : MemState) (organizationId groupId : Nat)
    (t : InsertTarget) (now : Nat) : Target × MemState :=
  let id := s.currentId
  let newTarget : Target :=
    { id := id, firstName := t.firstName, lastName := t.lastName
      email := t.email, position := t.position
      groupId := groupId, organizationId := organizationId
      createdAt := now, updatedAt := now }
  (newTarget,
    { s with targets := s.targets ++ [newTarget], currentId := id + 1 })

/-- MemStorage.listTargets: all targets of the given group. -/
def listTargets (s : MemState) (groupId : Nat) : List Target :=
  s.targets.filter (fun t => t.groupId == groupId)

/-- MemStorage.getSmtpProfile. -/
def getSmtpProfile (s : MemState) (id : Nat) : Option SmtpProfile :=
  s.smtpProfiles.find? (fun p => p.id == id)

/-- MemStorage.createSmtpProfile. -/
def createSmtpProfile (s : MemState) (organizationId : Nat)
    (p : InsertSmtpProfile) (now : Nat) : SmtpProfile × MemState :=
  let id := s.currentId
  let newProfile : SmtpProfile :=
    { id := id, name := p.name, host := p.host, port := p.port
      username := p.username, password := p.password
      fromName := p.fromName, fromEmail := p.fromEmail
      organizationId := organizationId, createdAt := now, updatedAt := now }
  (newProfile,
    { s with smtpProfiles := s.smtpProfiles ++ [newProfile]
             currentId := id + 1 })

/-- MemStorage.listSmtpProfiles. -/
def listSmtpProfiles (s : MemState) (organizationId : Nat) : List SmtpProfile :=
  s.smtpProfiles.filter (fun p => p.organizationId == organizationId)

/-- MemStorage.getEmailTemplate. -/
def getEmailTemplate (s : MemState) (id : Nat) : Option EmailTemplate :=
  s.emailTemplates.find? (fun t => t.id == id)

/-- MemStorage.createEmailTemplate. -/
def createEmailTemplate (s : MemState) (organizationId userId : Nat)
    (t : InsertEmailTemplate) (now : Nat) : EmailTemplate × MemState :=
  let id := s.currentId
  let newTemplate : EmailTemplate :=
    { id := id, name := t.name, subject := t.subject
      htmlContent := t.htmlContent, textContent := t.textContent
      senderName := t.senderName, senderEmail := t.senderEmail
      organizationId := organizationId, createdById := userId
      createdAt := now, updatedAt := now }
  (newTemplate,
    { s with emailTemplates := s.emailTemplates ++ [newTemplate]
             currentId := id + 1 })

/-- MemStorage.listEmailTemplates. -/
def listEmailTemplates (s : MemState) (organizationId : Nat) :
    List EmailTemplate :=
  s.emailTemplates.filter (fun t => t.organizationId == organizationId)

/-- MemStorage.getLandingPage. -/
def getLandingPage (s : MemState) (id : Nat) : Option LandingPage :=
  s.landingPages.find? (fun p => p.id == id)

/-- MemStorage.createLandingPage. -/
def createLandingPage (s : MemState) (organizationId userId : Nat)
    (p : InsertLandingPage) (now : Nat) : LandingPage × MemState :=
  let id := s.currentId
  let newPage : LandingPage :=
    { id := id, name := p.name, description := p.description
      htmlContent := p.htmlContent, redirectUrl := p.redirectUrl
      pageType := p.pageType, thumbnail := p.thumbnail
      organizationId := organizationId, createdById := userId
      createdAt := now, updatedAt := now }
  (newPage,
    { s with landingPages := s.landingPages ++ [newPage]
             currentId := id + 1 })

/-- MemStorage.listLandingPages. -/
def listLandingPages (s : MemState) (organizationId : Nat) : List LandingPage :=
  s.landingPages.filter (fun p => p.organizationId == organizationId)

/-- MemStorage.getCampaign. -/
def getCampaign (s : MemState) (id : Nat) : Option Campaign :=
  s.campaigns.find? (fun c => c.id == id)

/-- MemStorage.createCampaign: stamps status Draft, creator, timestamps. -/
def createCampaign (s : MemState) (organizationId userId : Nat)
    (c : InsertCampaign) (now : Nat) : Campaign × MemState :=
  let id := s.currentId
  let newCampaign : Campaign :=
    { id := id, name := c.name, status := "Draft"
      targetGroupId := c.targetGroupId, smtpProfileId := c.smtpProfileId
      emailTemplateId := c.emailTemplateId, landingPageId := c.landingPageId
      scheduledAt := c.scheduledAt, endDate := c.endDate
      createdById := userId, organizationId := organizationId
      createdAt := now, updatedAt := now }
  (newCampaign,
    { s with campaigns := s.campaigns ++ [newCampaign], currentId := id + 1 })

/-- MemStorage.deleteCampaign: deletes all results of the campaign first,
then the campaign itself. -/
def deleteCampaign (s : MemState) (id : Nat) : Bool × MemState :=
  let existed := s.campaigns.any (fun c => c.id == id)
  (existed,
    { s with
        campaignResults :=
          s.campaignResults.filter (fun r => !(r.campaignId == id))
        campaigns := s.campaigns.filter (fun c => !(c.id == id)) })

/-- MemStorage.listCampaigns. -/
def listCampaigns (s : MemState) (organizationId : Nat) : List Campaign :=
  s.campaigns.filter (fun c => c.organizationId == organizationId)

/-- MemStorage.listCampaignResults. -/
def listCampaignResults (s : MemState) (campaignId : Nat) :
    List CampaignResult :=
  s.campaignResults.filter (fun r => r.campaignId == campaignId)

end Mem

/-- Partial shape for users, the TypeScript type Partial of User: every field
optional, a present field overwrites the stored one in the object spread. -/
structure PartialUser where
  id : Option Nat := none
  email : Option String := none
  password : Option String := none
  firstName : Option String := none
  lastName : Option String := none
  isAdmin : Option Bool := none
  organizationId : Option Nat := none
  organizationName : Option String := none
  createdAt : Option Nat := none
  updatedAt : Option Nat := none
deriving DecidableEq, Repr

/-- Partial shape for groups. -/
structure PartialGroup where
  id : Option Nat := none
  name : Option String := none
  description : Option (Option String) := none
  organizationId : Option Nat := none
  createdAt : Option Nat := none
  updatedAt : Option Nat := none
deriving DecidableEq, Repr

/-- Partial shape for targets. -/
structure PartialTarget where
  id : Option Nat := none
  firstName : Option String := none
  lastName : Option String := none
  email : Option String := none
  position : Option (Option String) := none
  groupId : Option Nat := none
  organizationId : Option Nat := none
  createdAt : Option Nat := none
  updatedAt : Option Nat := none
deriving DecidableEq, Repr

/-- Partial shape for SMTP profiles. -/
structure PartialSmtpProfile where
  id : Option Nat := none
  name : Option String := none
  host : Option String := none
  port : Option Nat := none
  username : Option String := none
  password : Option String := none
  fromName : Option String := none
  fromEmail : Option String := none
  organizationId : Option Nat := none
  createdAt : Option Nat := none
  updatedAt : Option Nat := none
deriving DecidableEq, Repr

/-- Partial shape for email templates. -/
structure PartialEmailTemplate where
  id : Option Nat := none
  name : Option String := none
  subject : Option String := none
  htmlContent : Option String := none
  textContent : Option (Option String) := none
  senderName : Option String := none
  senderEmail : Option String := none
  organizationId : Option Nat := none
  createdById : Option Nat := none
  createdAt : Option Nat := none
  updatedAt : Option Nat := none
deriving DecidableEq, Repr

/-- Partial shape for landing pages. -/
structure PartialLandingPage where
  id : Option Nat := none
  name : Option String := none
  description : Option (Option String) := none
  htmlContent : Option String := none
  redirectUrl : Option (Option String) := none
  pageType : Option String := none
  thumbnail : Option (Option String) := none
  organizationId : Option Nat := none
  createdById : Option Nat := none
  createdAt : Option Nat := none
  updatedAt : Option Nat := none
deriving DecidableEq, Repr

/-- Partial shape for campaigns. -/
structure PartialCampaign where
  id : Option Nat := none
  name : Option String := none
  status : Option String := none
  targetGroupId : Option Nat := none
  smtpProfileId : Option Nat := none
  emailTemplateId : Option Nat := none
  landingPageId : Option Nat := none
  scheduledAt : Option (Option Nat) := none
  endDate : Option (Option Nat) := none
  createdById : Option Nat := none
  organizationId : Option Nat := none
  createdAt : Option Nat := none
  updatedAt : Option Nat := none
deriving DecidableEq, Repr

/-- Partial shape for campaign results. -/
structure PartialCampaignResult where
  id : Option Nat := none
  campaignId : Option Nat := none
  targetId : Option Nat := none
  sent : Option Bool := none
  sentAt : Option (Option Nat) := none
  opened : Option Bool := none
  openedAt : Option (Option Nat) := none
  clicked : Option Bool := none
  clickedAt : Option (Option Nat) := none
  submitted : Option Bool := none
  submittedAt : Option (Option Nat) := none
  submittedData : Option (Option String) := none
  organizationId : Option Nat := none
  createdAt : Option Nat := none
  updatedAt : Option Nat := none
deriving DecidableEq, Repr

/-- The object spread of the update methods: prior entity, then data, then a
fresh updatedAt stamp, rendered field by field for users. -/
def mergeUser (u : User) (d : PartialUser) (now : Nat) : User :=
  { id := d.id.getD u.id, email := d.email.getD u.email
    password := d.password.getD u.password
    firstName := d.firstName.getD u.firstName
    lastName := d.lastName.getD u.lastName
    isAdmin := d.isAdmin.getD u.isAdmin
    organizationId := d.organizationId.getD u.organizationId
    organizationName := d.organizationName.getD u.organizationName
    createdAt := d.createdAt.getD u.createdAt
    updatedAt := now }

/-- Object spread for group updates. -/
def mergeGroup (g : Group) (d : PartialGroup) (now : Nat) : Group :=
  { id := d.id.getD g.id, name := d.name.getD g.name
    description := d.description.getD g.description
    organizationId := d.organizationId.getD g.organizationId
    createdAt := d.createdAt.getD g.createdAt
    updatedAt := now }

/-- Object spread for target updates. -/
def mergeTarget (t : Target) (d : PartialTarget) (now : Nat) : Target :=
  { id := d.id.getD t.id, firstName := d.firstName.getD t.firstName
    lastName := d.lastName.getD t.lastName
    email := d.email.getD t.email
    position := d.position.getD t.position
    groupId := d.groupId.getD t.groupId
    organizationId := d.organizationId.getD t.organizationId
    createdAt := d.createdAt.getD t.createdAt
    updatedAt := now }

/-- Object spread for SMTP profile updates. -/
def mergeSmtpProfile (p : SmtpProfile) (d : PartialSmtpProfile) (now : Nat) :
    SmtpProfile :=
  { id := d.id.getD p.id, name := d.name.getD p.name
    host := d.host.getD p.host, port := d.port.getD p.port
    username := d.username.getD p.username
    password := d.password.getD p.password
    fromName := d.fromName.getD p.fromName
    fromEmail := d.fromEmail.getD p.fromEmail
    organizationId := d.organizationId.getD p.organizationId
    createdAt := d.createdAt.getD p.createdAt
    updatedAt := now }

/-- Object spread for email template updates. -/
def mergeEmailTemplate (t : EmailTemplate) (d : PartialEmailTemplate)
    (now : Nat) : EmailTemplate :=
  { id := d.id.getD t.id, name := d.name.getD t.name
    subject := d.subject.getD t.subject
    htmlContent := d.htmlContent.getD t.htmlContent
    textContent := d.textContent.getD t.textContent
    senderName := d.senderName.getD t.senderName
    senderEmail := d.senderEmail.getD t.senderEmail
    organizationId := d.organizationId.getD t.organizationId
    createdById := d.createdById.getD t.createdById
    createdAt := d.createdAt.getD t.createdAt
    updatedAt := now }

/-- Object spread for landing page updates. -/
def mergeLandingPage (p : LandingPage) (d : PartialLandingPage) (now : Nat) :
    LandingPage :=
  { id := d.id.getD p.id, name := d.name.getD p.name
    description := d.description.getD p.description
    htmlContent := d.htmlContent.getD p.htmlContent
    redirectUrl := d.redirectUrl.getD p.redirectUrl
    pageType := d.pageType.getD p.pageType
    thumbnail := d.thumbnail.getD p.thumbnail
    organizationId := d.organizationId.getD p.organizationId
    createdById := d.createdById.getD p.createdById
    createdAt := d.createdAt.getD p.createdAt
    updatedAt := now }

/-- Object spread for campaign updates. -/
def mergeCampaign (c : Campaign) (d : PartialCampaign) (now : Nat) :
    Campaign :=
  { id := d.id.getD c.id, name := d.name.getD c.name
    status := d.status.getD c.status
    targetGroupId := d.targetGroupId.getD c.targetGroupId
    smtpProfileId := d.smtpProfileId.getD c.smtpProfileId
    emailTemplateId := d.emailTemplateId.getD c.emailTemplateId
    landingPageId := d.landingPageId.getD c.landingPageId
    scheduledAt := d.scheduledAt.getD c.scheduledAt
    endDate := d.endDate.getD c.endDate
    createdById := d.createdById.getD c.createdById
    organizationId := d.organizationId.getD c.organizationId
    createdAt := d.createdAt.getD c.createdAt
    updatedAt := now }

/-- Object spread for campaign result updates. -/
def mergeCampaignResult (r : CampaignResult) (d : PartialCampaignResult)
    (now : Nat) : CampaignResult :=
  { id := d.id.getD r.id, campaignId := d.campaignId.getD r.campaignId
    targetId := d.targetId.getD r.targetId
    sent := d.sent.getD r.sent, sentAt := d.sentAt.getD r.sentAt
    opened := d.opened.getD r.opened, openedAt := d.openedAt.getD r.openedAt
    clicked := d.clicked.getD r.clicked
    clickedAt := d.clickedAt.getD r.clickedAt
    submitted := d.submitted.getD r.submitted
    submittedAt := d.submittedAt.getD r.submittedAt
    submittedData := d.submittedData.getD r.submittedData
    organizationId := d.organizationId.getD r.organizationId
    createdAt := d.createdAt.getD r.createdAt
    updatedAt := now }

namespace Mem

/-- MemStorage.updateUser: get by key, merge, set under the same key. -/
def updateUser (s : MemState) (id : Nat) (d : PartialUser) (now : Nat) :
    Option User × MemState :=
  match getUser s id with
  | none => (none, s)
  | some u =>
    let merged := mergeUser u d now
    (some merged,
      { s with users := s.users.map (fun x => if x.id == id then merged else x) })

/-- MemStorage.updateGroup. -/
def updateGroup (s : MemState) (id : Nat) (d : PartialGroup) (now : Nat) :
    Option Group × MemState :=
  match getGroup s id with
  | none => (none, s)
  | some g =>
    let merged := mergeGroup g d now
    (some merged,
      { s with groups := s.groups.map (fun x => if x.id == id then merged else x) })

/-- MemStorage.updateTarget. -/
def updateTarget (s : MemState) (id : Nat) (d : PartialTarget) (now : Nat) :
    Option Target × MemState :=
  match getTarget s id with
  | none => (none, s)
  | some t =>
    let merged := mergeTarget t d now
    (some merged,
      { s with targets := s.targets.map (fun x => if x.id == id then merged else x) })

/-- MemStorage.updateSmtpProfile. -/
def updateSmtpProfile (s : MemState) (id : Nat) (d : PartialSmtpProfile)
    (now : Nat) : Option SmtpProfile × MemState :=
  match getSmtpProfile s id with
  | none => (none, s)
  | some p =>
    let merged := mergeSmtpProfile p d now
    (some merged,
      { s with smtpProfiles :=
          s.smtpProfiles.map (fun x => if x.id == id then merged else x) })

/-- MemStorage.updateEmailTemplate. -/
def updateEmailTemplate (s : MemState) (id : Nat) (d : PartialEmailTemplate)
    (now : Nat) : Option EmailTemplate × MemState :=
  match getEmailTemplate s id with
  | none => (none, s)
  | some t =>
    let merged := mergeEmailTemplate t d now
    (some merged,
      { s with emailTemplates :=
          s.emailTemplates.map (fun x => if x.id == id then merged else x) })

/-- MemStorage.updateLandingPage. -/
def updateLandingPage (s : MemState) (id : Nat) (d : PartialLandingPage)
    (now : Nat) : Option LandingPage × MemState :=
  match getLandingPage s id with
  | none => (none, s)
  | some p =>
    let merged := mergeLandingPage p d now
    (some merged,
      { s with landingPages :=
          s.landingPages.map (fun x => if x.id == id then merged else x) })

/-- MemStorage.updateCampaign. -/
def updateCampaign (s : MemState) (id : Nat) (d : PartialCampaign)
    (now : Nat) : Option Campaign × MemState :=
  match getCampaign s id with
  | none => (none, s)
  | some c =>
    let merged := mergeCampaign c d now
    (some merged,
      { s with campaigns :=
          s.campaigns.map (fun x => if x.id == id then merged else x) })

/-- MemStorage.getCampaignResult. -/
def getCampaignResult (s : MemState) (id : Nat) : Option CampaignResult :=
  s.campaignResults.find? (fun r => r.id == id)

/-- MemStorage.updateCampaignResult. -/
def updateCampaignResult (s : MemState) (id : Nat) (d : PartialCampaignResult)
    (now : Nat) : Option CampaignResult × MemState :=
  match getCampaignResult s id with
  | none => (none, s)
  | some r =>
    let merged := mergeCampaignResult r d now
    (some merged,
      { s with campaignResults :=
          s.campaignResults.map (fun x => if x.id == id then merged else x) })

end Mem

namespace Db

/-- DatabaseStorage.deleteGroup: the DELETE statement removes the group row
and the schema's onDelete cascade on targets.groupId removes its targets,
but the onDelete restrict on campaigns.targetGroupId makes the statement
throw (none, store unchanged) when the group row exists and a campaign
references it; otherwise the method returns true without inspecting the row
count. -/
def deleteGroup (s : MemState) (id : Nat) : Option (Bool × MemState) :=
  if s.groups.any (fun g => g.id == id)
      && s.campaigns.any (fun c => c.targetGroupId == id) then
    none
  else
    some (true,
      { s with targets := s.targets.filter (fun t => !(t.groupId == id))
               groups := s.groups.filter (fun g => !(g.id == id)) })

/-- DatabaseStorage.deleteCampaign: DELETE plus the schema's cascade on
campaignResults.campaignId; no foreign key restricts campaigns, so the
statement always succeeds and returns true unconditionally. -/
def deleteCampaign (s : MemState) (id : Nat) : Bool × MemState :=
  (true,
    { s with
        campaignResults :=
          s.campaignResults.filter (fun r => !(r.campaignId == id))
        campaigns := s.campaigns.filter (fun c => !(c.id == id)) })

/-- Deletion of an organization row under the schema's onDelete cascade
annotations: every table carries an organizationId foreign key with cascade,
and targets and campaignResults additionally cascade from their group,
campaign and target foreign keys. -/
def deleteOrganization (s : MemState) (id : Nat) : MemState :=
  let removedGroups := s.groups.filter (fun g => g.organizationId == id)
  let removedCampaigns := s.campaigns.filter (fun c => c.organizationId == id)
  let targetGone : Target → Bool := fun t =>
    t.organizationId == id || removedGroups.any (fun g => g.id == t.groupId)
  let removedTargets := s.targets.filter targetGone
  { s with
      organizations := s.organizations.filter (fun o => !(o.id == id))
      users := s.users.filter (fun u => !(u.organizationId == id))
      groups := s.groups.filter (fun g => !(g.organizationId == id))
      smtpProfiles := s.smtpProfiles.filter (fun p => !(p.organizationId == id))
      emailTemplates :=
        s.emailTemplates.filter (fun t => !(t.organizationId == id))
      landingPages := s.landingPages.filter (fun p => !(p.organizationId == id))
      campaigns := s.campaigns.filter (fun c => !(c.organizationId == id))
      targets := s.targets.filter (fun t => !(targetGone t))
      campaignResults := s.campaignResults.filter (fun r =>
        !(r.organizationId == id
          || removedCampaigns.any (fun c => c.id == r.campaignId)
          || removedTargets.any (fun t => t.id == r.targetId))) }

end Db

namespace Routes

/-- Outcome of an ownership-guarded fetch in a route handler: not found,
access denied, or the entity. -/
inductive Fetch (α : Type) where
  | notFound : Fetch α
  | accessDenied : Fetch α
  | ok : α → Fetch α
deriving DecidableEq, Repr

/-- The guarded group fetch of the group routes: 404 when the id is unknown,
403 when the group's organizationId differs from the session's. -/
def getGroupScoped (s : MemState) (orgId gid : Nat) : Fetch Group :=
  match Mem.getGroup s gid with
  | none => .notFound
  | some g => if g.organizationId != orgId then .accessDenied else .ok g

/-- The guarded email template fetch of the template routes. -/
def getEmailTemplateScoped (s : MemState) (orgId tid : Nat) :
    Fetch EmailTemplate :=
  match Mem.getEmailTemplate s tid with
  | none => .notFound
  | some t => if t.organizationId != orgId then .accessDenied else .ok t

/-- The handler of POST on the campaigns endpoint: four ownership checks,
each an early 403 return naming the invalid reference, then the write. -/
def postCampaign (s : MemState) (orgId userId : Nat) (d : InsertCampaign)
    (now : Nat) : Except String Campaign × MemState :=
  match Mem.getGroup s d.targetGroupId with
  | none => (.error "Access denied: Invalid target group", s)
  | some g =>
    if g.organizationId != orgId then
      (.error "Access denied: Invalid target group", s)
    else
      match Mem.getSmtpProfile s d.smtpProfileId with
      | none => (.error "Access denied: Invalid SMTP profile", s)
      | some p =>
        if p.organizationId != orgId then
          (.error "Access denied: Invalid SMTP profile", s)
        else
          match Mem.getEmailTemplate s d.emailTemplateId with
          | none => (.error "Access denied: Invalid email template", s)
          | some t =>
            if t.organizationId != orgId then
              (.error "Access denied: Invalid email template", s)
            else
              match Mem.getLandingPage s d.landingPageId with
              | none => (.error "Access denied: Invalid landing page", s)
              | some lp =>
                if lp.organizationId != orgId then
                  (.error "Access denied: Invalid landing page", s)
                else
                  let created := Mem.createCampaign s orgId userId d now
                  (.ok created.1, created.2)

/-- Whether the campaign's group reference resolves to a group of the
caller's organization. -/
def groupRefOk (s : MemState) (orgId : Nat) (d : InsertCampaign) : Bool :=
  match Mem.getGroup s d.targetGroupId with
  | none => false
  | some g => g.organizationId == orgId

/-- Whether the SMTP profile reference is owned by the caller. -/
def smtpRefOk (s : MemState) (orgId : Nat) (d : InsertCampaign) : Bool :=
  match Mem.getSmtpProfile s d.smtpProfileId with
  | none => false
  | some p => p.organizationId == orgId

/-- Whether the email template reference is owned by the caller. -/
def templateRefOk (s : MemState) (orgId : Nat) (d : InsertCampaign) : Bool :=
  match Mem.getEmailTemplate s d.emailTemplateId with
  | none => false
  | some t => t.organizationId == orgId

/-- Whether the landing page reference is owned by the caller. -/
def landingRefOk (s : MemState) (orgId : Nat) (d : InsertCampaign) : Bool :=
  match Mem.getLandingPage s d.landingPageId with
  | none => false
  | some p => p.organizationId == orgId

/-- All four campaign references resolve inside the caller's organization. -/
def refsOk (s : MemState) (orgId : Nat) (d : InsertCampaign) : Bool :=
  groupRefOk s orgId d && smtpRefOk s orgId d
    && templateRefOk s orgId d && landingRefOk s orgId d

/-- The returned message names a reference that is indeed invalid for the
caller. -/
def namesInvalidRef (s : MemState) (orgId : Nat) (d : InsertCampaign)
    (msg : String) : Prop :=
  (msg = "Access denied: Invalid target group" ∧ groupRefOk s orgId d = false)
  ∨ (msg = "Access denied: Invalid SMTP profile" ∧ smtpRefOk s orgId d = false)
  ∨ (msg = "Access denied: Invalid email template"
      ∧ templateRefOk s orgId d = false)
  ∨ (msg = "Access denied: Invalid landing page"
      ∧ landingRefOk s orgId d = false)

/-- A parsed CSV data row: the key-value pairs produced by the header-mode
parser. -/
abbrev Row := List (String × String)

/-- The result handed over by the CSV parser: row-level parse errors and the
data rows. -/
structure ParseResult where
  errors : List String
  data : List Row
deriving DecidableEq, Repr

/-- A normalized row: the four recognized columns, each present or absent. -/
structure NormalizedRow where
  firstName : Option String := none
  lastName : Option String := none
  email : Option String := none
  position : Option String := none
deriving DecidableEq, Repr

/-- Header-key normalization of the import handler: case-insensitive mapping
of the recognized column names, unrecognized columns dropped. -/
def normalizeRow (row : Row) : NormalizedRow :=
  row.foldl
    (fun acc kv =>
      let k := strToLower kv.1
      if k == "firstname" || k == "first_name" then
        { acc with firstName := some kv.2 }
      else if k == "lastname" || k == "last_name" then
        { acc with lastName := some kv.2 }
      else if k == "email" then
        { acc with email := some kv.2 }
      else if k == "position" || k == "title" then
        { acc with position := some kv.2 }
      else acc)
    {}

/-- Validation of a normalized row against insertTargetSchema: the three
required string columns must be present (the schema puts no format
constraint on email); the error lists the missing required fields. -/
def parseInsertTarget (r : NormalizedRow) : Except (List String) InsertTarget :=
  match r.firstName, r.lastName, r.email with
  | some f, some l, some e => .ok { firstName := f, lastName := l, email := e
                                    position := r.position }
  | _, _, _ =>
    .error ((if r.firstName.isNone then ["firstName"] else [])
      ++ (if r.lastName.isNone then ["lastName"] else [])
      ++ (if r.email.isNone then ["email"] else []))

/-- Whether a raw CSV row normalizes and validates successfully. -/
def rowValid (row : Row) : Bool :=
  (parseInsertTarget (normalizeRow row)).toBool

/-- The error entry recorded for a failing row: the 1-based row number
including the header offset, and the validation errors. -/
structure RowError where
  row : Nat
  error : List String
deriving DecidableEq, Repr

/-- The per-row import loop: each data row is normalized and validated on
its own; success creates a target, failure records a row error at data
index plus two, and the loop continues either way. -/
def importLoop (o gid now : Nat) :
    MemState → Nat → List Row → (Nat × List RowError) × MemState
  | s, _, [] => ((0, []), s)
  | s, idx, row :: rest =>
    match parseInsertTarget (normalizeRow row) with
    | .ok d =>
      let s1 := (Mem.createTarget s o gid d now).2
      let rec1 := importLoop o gid now s1 (idx + 1) rest
      ((rec1.1.1 + 1, rec1.1.2), rec1.2)
    | .error e =>
      let rec1 := importLoop o gid now s (idx + 1) rest
      ((rec1.1.1, { row := idx + 2, error := e } :: rec1.1.2), rec1.2)

/-- Specification of the row errors the loop produces: a pure per-row
function of the data rows alone, showing each row's outcome is independent
of every other row and of the store. -/
def rowErrorsSpec (idx : Nat) : List Row → List RowError
  | [] => []
  | row :: rest =>
    match parseInsertTarget (normalizeRow row) with
    | .ok _ => rowErrorsSpec (idx + 1) rest
    | .error e => { row := idx + 2, error := e } :: rowErrorsSpec (idx + 1) rest

/-- Response of the import endpoint. -/
inductive ImportResponse where
  | notFound : ImportResponse
  | accessDenied : ImportResponse
  | parseFailed : List String → ImportResponse
  | ok : Nat → Nat → Option (List RowError) → ImportResponse
deriving DecidableEq, Repr

/-- The handler of POST on the group import endpoint: group existence and
ownership guards, the whole-file parse error guard, then the per-row loop;
the response carries the imported count, the failed count, and the row
errors (omitted when there are none). -/
def importTargets (s : MemState) (orgId gid : Nat) (p : ParseResult)
    (now : Nat) : ImportResponse × MemState :=
  match Mem.getGroup s gid with
  | none => (.notFound, s)
  | some g =>
    if g.organizationId != orgId then (.accessDenied, s)
    else if p.errors != [] then (.parseFailed p.errors, s)
    else
      let run := importLoop orgId gid now s 0 p.data
      (.ok run.1.1 run.1.2.length
        (if run.1.2.isEmpty then none else some run.1.2), run.2)

end Routes

/-! Concrete fixtures used to instantiate the theorems. -/

/-- A sample user insert. -/
def iu0 : InsertUser :=
  { email := "eve@o1.test", password := "pw", firstName := "E", lastName := "V"
    isAdmin := false, organizationName := "O1" }

/-- A sample group insert. -/
def ig0 : InsertGroup := { name := "G", description := none }

/-- A sample SMTP profile insert. -/
def ip0 : InsertSmtpProfile :=
  { name := "S", host := "h", port := 25, username := "u", password := "p"
    fromName := "f", fromEmail := "f@h" }

/-- A sample email template insert. -/
def iet0 : InsertEmailTemplate :=
  { name := "T", subject := "s", htmlContent := "h", textContent := none
    senderName := "n", senderEmail := "e@h" }

/-- A sample landing page insert. -/
def ilp0 : InsertLandingPage :=
  { name := "L", description := none, htmlContent := "h", redirectUrl := none
    pageType := "login", thumbnail := none }

/-- A sample campaign insert referencing ids 2 through 6. -/
def ic0 : InsertCampaign :=
  { name := "C", targetGroupId := 2, smtpProfileId := 4, emailTemplateId := 5
    landingPageId := 6, scheduledAt := none, endDate := none }

/-- A sample user of organization 1. -/
def u1 : User :=
  { id := 1, email := "eve@o1.test", password := "pw", firstName := "E"
    lastName := "V", isAdmin := false, organizationId := 1
    organizationName := "O1", createdAt := 0, updatedAt := 0 }

/-- A sample organization. -/
def org1 : Organization := { id := 10, name := "O1", createdAt := 0, updatedAt := 0 }

/-- A sample group of organization 1. -/
def g1 : Group :=
  { id := 2, name := "G", description := none, organizationId := 1
    createdAt := 0, updatedAt := 0 }

/-- A sample target of group 2. -/
def t1 : Target :=
  { id := 3, firstName := "F", lastName := "L", email := "t@x.com"
    position := none, groupId := 2, organizationId := 1
    createdAt := 0, updatedAt := 0 }

/-- A sample SMTP profile of organization 1. -/
def sp1 : SmtpProfile :=
  { id := 4, name := "S", host := "h", port := 25, username := "u"
    password := "p", fromName := "f", fromEmail := "f@h"
    organizationId := 1, createdAt := 0, updatedAt := 0 }

/-- A sample email template of organization 1. -/
def et1 : EmailTemplate :=
  { id := 5, name := "T", subject := "s", htmlContent := "h"
    textContent := none, senderName := "n", senderEmail := "e@h"
    organizationId := 1, createdById := 1, createdAt := 0, updatedAt := 0 }

/-- A sample landing page of organization 1. -/
def lp1 : LandingPage :=
  { id := 6, name := "L", description := none, htmlContent := "h"
    redirectUrl := none, pageType := "login", thumbnail := none
    organizationId := 1, createdById := 1, createdAt := 0, updatedAt := 0 }

/-- A sample campaign of organization 1 referencing the fixtures above. -/
def c1 : Campaign :=
  { id := 7, name := "C", status := "Draft", targetGroupId := 2
    smtpProfileId := 4, emailTemplateId := 5, landingPageId := 6
    scheduledAt := none, endDate := none, createdById := 1
    organizationId := 1, createdAt := 0, updatedAt := 0 }

/-- A sample campaign result for campaign 7 and target 3. -/
def cr1 : CampaignResult :=
  { id := 8, campaignId := 7, targetId := 3, sent := false, sentAt := none
    opened := false, openedAt := none, clicked := false, clickedAt := none
    submitted := false, submittedAt := none, submittedData := none
    organizationId := 1, createdAt := 0, updatedAt := 0 }

/-- A store holding one entity of every kind, all under organization 1. -/
def sAll : MemState :=
  { users := [u1], organizations := [org1], groups := [g1], targets := [t1]
    smtpProfiles := [sp1], emailTemplates := [et1], landingPages := [lp1]
    campaigns := [c1], campaignResults := [cr1], currentId := 9 }

/-- A store holding only group 2 of organization 1. -/
def sG : MemState := { emptyState with groups := [g1], currentId := 3 }

/-- Three targets of group 2 for the target count instance. -/
def tA : Target :=
  { id := 3, firstName := "A", lastName := "A", email := "a@x.com"
    position := none, groupId := 2, organizationId := 1
    createdAt := 0, updatedAt := 0 }

/-- Second of the three targets of group 2. -/
def tB : Target := { tA with id := 4, firstName := "B" }

/-- Third of the three targets of group 2. -/
def tC : Target := { tA with id := 5, firstName := "C" }

/-- A store with one group of organization 1 containing three targets. -/
def s3 : MemState :=
  { emptyState with groups := [g1], targets := [tA, tB, tC], currentId := 6 }

/-- The two data rows of the import example: a complete row and a row with
an empty email and no lastName column. -/
def rows5 : List Routes.Row :=
  [[("email", "a@x.com"), ("firstName", "A"), ("lastName", "X")],
   [("email", ""), ("firstName", "B")]]

/-- The parse result of the import example: no parser errors, two rows. -/
def p5 : Routes.ParseResult := { errors := [], data := rows5 }

/-- A partial group update supplying only an updatedAt value. -/
def d999 : PartialGroup := { updatedAt := some 999 }

/-- A parse result carrying a parser-reported row error. -/
def pBad : Routes.ParseResult :=
  { errors := ["Too few fields"], data := [[("email", "x@y.z")]] }

/-- Presence semantics of one field of a partial update: absent leaves the
stored value, present overwrites it. -/
def overrides {α : Type} (dv : Option α) (old new : α) : Prop :=
  (dv = none → new = old) ∧ (∀ v, dv = some v → new = v)

/-- Frame property of a user update: every field follows its presence in
the partial data, except updatedAt which is stamped with the call time. -/
def frameUser (u : User) (d : PartialUser) (now : Nat) (r : User) : Prop :=
  overrides d.id u.id r.id ∧ overrides d.email u.email r.email
    ∧ overrides d.password u.password r.password
    ∧ overrides d.firstName u.firstName r.firstName
    ∧ overrides d.lastName u.lastName r.lastName
    ∧ overrides d.isAdmin u.isAdmin r.isAdmin
    ∧ overrides d.organizationId u.organizationId r.organizationId
    ∧ overrides d.organizationName u.organizationName r.organizationName
    ∧ overrides d.createdAt u.createdAt r.createdAt
    ∧ r.updatedAt = now

/-- Frame property of a group update. -/
def frameGroup (g : Group) (d : PartialGroup) (now : Nat) (r : Group) : Prop :=
  overrides d.id g.id r.id ∧ overrides d.name g.name r.name
    ∧ overrides d.description g.description r.description
    ∧ overrides d.organizationId g.organizationId r.organizationId
    ∧ overrides d.createdAt g.createdAt r.createdAt
    ∧ r.updatedAt = now

/-- Frame property of a target update. -/
def frameTarget (t : Target) (d : PartialTarget) (now : Nat) (r : Target) :
    Prop :=
  overrides d.id t.id r.id ∧ overrides d.firstName t.firstName r.firstName
    ∧ overrides d.lastName t.lastName r.lastName
    ∧ overrides d.email t.email r.email
    ∧ overrides d.position t.position r.position
    ∧ overrides d.groupId t.groupId r.groupId
    ∧ overrides d.organizationId t.organizationId r.organizationId
    ∧ overrides d.createdAt t.createdAt r.createdAt
    ∧ r.updatedAt = now

/-- Frame property of an SMTP profile update. -/
def frameSmtpProfile (p : SmtpProfile) (d : PartialSmtpProfile) (now : Nat)
    (r : SmtpProfile) : Prop :=
  overrides d.id p.id r.id ∧ overrides d.name p.name r.name
    ∧ overrides d.host p.host r.host ∧ overrides d.port p.port r.port
    ∧ overrides d.username p.username r.username
    ∧ overrides d.password p.password r.password
    ∧ overrides d.fromName p.fromName r.fromName
    ∧ overrides d.fromEmail p.fromEmail r.fromEmail
    ∧ overrides d.organizationId p.organizationId r.organizationId
    ∧ overrides d.createdAt p.createdAt r.createdAt
    ∧ r.updatedAt = now

/-- Frame property of an email template update. -/
def frameEmailTemplate (t : EmailTemplate) (d : PartialEmailTemplate)
    (now : Nat) (r : EmailTemplate) : Prop :=
  overrides d.id t.id r.id ∧ overrides d.name t.name r.name
    ∧ overrides d.subject t.subject r.subject
    ∧ overrides d.htmlContent t.htmlContent r.htmlContent
    ∧ overrides d.textContent t.textContent r.textContent
    ∧ overrides d.senderName t.senderName r.senderName
    ∧ overrides d.senderEmail t.senderEmail r.senderEmail
    ∧ overrides d.organizationId t.organizationId r.organizationId
    ∧ overrides d.createdById t.createdById r.createdById
    ∧ overrides d.createdAt t.createdAt r.createdAt
    ∧ r.updatedAt = now

/-- Frame property of a landing page update. -/
def frameLandingPage (p : LandingPage) (d : PartialLandingPage) (now : Nat)
    (r : LandingPage) : Prop :=
  overrides d.id p.id r.id ∧ overrides d.name p.name r.name
    ∧ overrides d.description p.description r.description
    ∧ overrides d.htmlContent p.htmlContent r.htmlContent
    ∧ overrides d.redirectUrl p.redirectUrl r.redirectUrl
    ∧ overrides d.pageType p.pageType r.pageType
    ∧ overrides d.thumbnail p.thumbnail r.thumbnail
    ∧ overrides d.organizationId p.organizationId r.organizationId
    ∧ overrides d.createdById p.createdById r.createdById
    ∧ overrides d.createdAt p.createdAt r.createdAt
    ∧ r.updatedAt = now

/-- Frame property of a campaign update. -/
def frameCampaign (c : Campaign) (d : PartialCampaign) (now : Nat)
    (r : Campaign) : Prop :=
  overrides d.id c.id r.id ∧ overrides d.name c.name r.name
    ∧ overrides d.status c.status r.status
    ∧ overrides d.targetGroupId c.targetGroupId r.targetGroupId
    ∧ overrides d.smtpProfileId c.smtpProfileId r.smtpProfileId
    ∧ overrides d.emailTemplateId c.emailTemplateId r.emailTemplateId
    ∧ overrides d.landingPageId c.landingPageId r.landingPageId
    ∧ overrides d.scheduledAt c.scheduledAt r.scheduledAt
    ∧ overrides d.endDate c.endDate r.endDate
    ∧ overrides d.createdById c.createdById r.createdById
    ∧ overrides d.organizationId c.organizationId r.organizationId
    ∧ overrides d.createdAt c.createdAt r.createdAt
    ∧ r.updatedAt = now

/-- Frame property of a campaign result update. -/
def frameCampaignResult (cr : CampaignResult) (d : PartialCampaignResult)
    (now : Nat) (r : CampaignResult) : Prop :=
  overrides d.id cr.id r.id ∧ overrides d.campaignId cr.campaignId r.campaignId
    ∧ overrides d.targetId cr.targetId r.targetId
    ∧ overrides d.sent cr.sent r.sent ∧ overrides d.sentAt cr.sentAt r.sentAt
    ∧ overrides d.opened cr.opened r.opened
    ∧ overrides d.openedAt cr.openedAt r.openedAt
    ∧ overrides d.clicked cr.clicked r.clicked
    ∧ overrides d.clickedAt cr.clickedAt r.clickedAt
    ∧ overrides d.submitted cr.submitted r.submitted
    ∧ overrides d.submittedAt cr.submittedAt r.submittedAt
    ∧ overrides d.submittedData cr.submittedData r.submittedData
    ∧ overrides d.organizationId cr.organizationId r.organizationId
    ∧ overrides d.createdAt cr.createdAt r.createdAt
    ∧ r.updatedAt = now

/-! Lemmas about scoping of reads. -/

/-- Every user returned by listUsers belongs to the queried organization. -/
lemma mem_listUsers_org {s : MemState} {o : Nat} {u : User}
    (h : u ∈ Mem.listUsers s o) : u.organizationId = o := by
  have h2 := (List.mem_filter.mp h).2
  simpa using h2

/-- Every group returned by listGroups belongs to the queried organization. -/
lemma mem_listGroups_org {s : MemState} {o : Nat} {x : Mem.GroupWithCount}
    (h : x ∈ Mem.listGroups s o) : x.group.organizationId = o := by
  unfold Mem.listGroups at h
  obtain ⟨g, hg, hx⟩ := List.mem_map.mp h
  have h2 := (List.mem_filter.mp hg).2
  rw [← hx]
  simpa using h2

/-- Every SMTP profile returned by listSmtpProfiles belongs to the queried
organization. -/
lemma mem_listSmtpProfiles_org {s : MemState} {o : Nat} {p : SmtpProfile}
    (h : p ∈ Mem.listSmtpProfiles s o) : p.organizationId = o := by
  have h2 := (List.mem_filter.mp h).2
  simpa using h2

/-- Every email template returned by listEmailTemplates belongs to the
queried organization. -/
lemma mem_listEmailTemplates_org {s : MemState} {o : Nat} {t : EmailTemplate}
    (h : t ∈ Mem.listEmailTemplates s o) : t.organizationId = o := by
  have h2 := (List.mem_filter.mp h).2
  simpa using h2

/-- Every landing page returned by listLandingPages belongs to the queried
organization. -/
lemma mem_listLandingPages_org {s : MemState} {o : Nat} {p : LandingPage}
    (h : p ∈ Mem.listLandingPages s o) : p.organizationId = o := by
  have h2 := (List.mem_filter.mp h).2
  simpa using h2

/-- Every campaign returned by listCampaigns belongs to the queried
organization. -/
lemma mem_listCampaigns_org {s : MemState} {o : Nat} {c : Campaign}
    (h : c ∈ Mem.listCampaigns s o) : c.organizationId = o := by
  have h2 := (List.mem_filter.mp h).2
  simpa using h2

/-- A group passing the route-level ownership guard belongs to the session's
organization. -/
lemma getGroupScoped_ok_org {s : MemState} {o gid : Nat} {g : Group}
    (h : Routes.getGroupScoped s o gid = .ok g) : g.organizationId = o := by
  unfold Routes.getGroupScoped at h
  cases hG : Mem.getGroup s gid <;> simp only [hG] at h
  · simp at h
  · split at h
    · simp at h
    next hc =>
      injection h with h2
      subst h2
      simpa using hc

/-- An email template passing the route-level ownership guard belongs to the
session's organization. -/
lemma getEmailTemplateScoped_ok_org {s : MemState} {o tid : Nat}
    {t : EmailTemplate}
    (h : Routes.getEmailTemplateScoped s o tid = .ok t) :
    t.organizationId = o := by
  unfold Routes.getEmailTemplateScoped at h
  cases hT : Mem.getEmailTemplate s tid <;> simp only [hT] at h
  · simp at h
  · split at h
    · simp at h
    next hc =>
      injection h with h2
      subst h2
      simpa using hc

/-- C1: tenant isolation of reads.  An entity created under organization o1
is never contained in the result of any list operation scoped to a distinct
organization o2, nor returned by the ownership-guarded get of a route
handler acting for o2, in any store state. -/
theorem tenant_isolation_of_reads (s sL : MemState) (o1 o2 : Nat)
    (h : o1 ≠ o2) :
    (∀ iu now, (Mem.createUser s o1 iu now).1 ∉ Mem.listUsers sL o2)
    ∧ (∀ ig now x, x ∈ Mem.listGroups sL o2 →
        x.group ≠ (Mem.createGroup s o1 ig now).1)
    ∧ (∀ ip now, (Mem.createSmtpProfile s o1 ip now).1 ∉
        Mem.listSmtpProfiles sL o2)
    ∧ (∀ uid it now, (Mem.createEmailTemplate s o1 uid it now).1 ∉
        Mem.listEmailTemplates sL o2)
    ∧ (∀ uid ip now, (Mem.createLandingPage s o1 uid ip now).1 ∉
        Mem.listLandingPages sL o2)
    ∧ (∀ uid ic now, (Mem.createCampaign s o1 uid ic now).1 ∉
        Mem.listCampaigns sL o2)
    ∧ (∀ gid ig now, Routes.getGroupScoped sL o2 gid ≠
        Routes.Fetch.ok (Mem.createGroup s o1 ig now).1)
    ∧ (∀ tid uid it now, Routes.getEmailTemplateScoped sL o2 tid ≠
        Routes.Fetch.ok (Mem.createEmailTemplate s o1 uid it now).1) := by
  refine ⟨?_, ?_, ?_, ?_, ?_, ?_, ?_, ?_⟩
  · intro iu now hmem
    have h2 := mem_listUsers_org hmem
    have hr : ((Mem.createUser s o1 iu now).1).organizationId = o1 := rfl
    rw [hr] at h2
    exact h h2
  · intro ig now x hmem hEq
    have h2 := mem_listGroups_org hmem
    rw [hEq] at h2
    have hr : ((Mem.createGroup s o1 ig now).1).organizationId = o1 := rfl
    rw [hr] at h2
    exact h h2
  · intro ip now hmem
    have h2 := mem_listSmtpProfiles_org hmem
    have hr : ((Mem.createSmtpProfile s o1 ip now).1).organizationId = o1 := rfl
    rw [hr] at h2
    exact h h2
  · intro uid it now hmem
    have h2 := mem_listEmailTemplates_org hmem
    have hr : ((Mem.createEmailTemplate s o1 uid it now).1).organizationId = o1 :=
      rfl
    rw [hr] at h2
    exact h h2
  · intro uid ip now hmem
    have h2 := mem_listLandingPages_org hmem
    have hr : ((Mem.createLandingPage s o1 uid ip now).1).organizationId = o1 :=
      rfl
    rw [hr] at h2
    exact h h2
  · intro uid ic now hmem
    have h2 := mem_listCampaigns_org hmem
    have hr : ((Mem.createCampaign s o1 uid ic now).1).organizationId = o1 := rfl
    rw [hr] at h2
    exact h h2
  · intro gid ig now hEq
    have h2 := getGroupScoped_ok_org hEq
    have hr : ((Mem.createGroup s o1 ig now).1).organizationId = o1 := rfl
    rw [hr] at h2
    exact h h2
  · intro tid uid it now hEq
    have h2 := getEmailTemplateScoped_ok_org hEq
    have hr : ((Mem.createEmailTemplate s o1 uid it now).1).organizationId = o1 :=
      rfl
    rw [hr] at h2
    exact h h2

/-- Witness for C1: a user created under organization 1 is absent from the
user listing of organization 2 over a populated store. -/
theorem tenant_isolation_of_reads_witness :
    (1 : Nat) ≠ 2 ∧
      (Mem.createUser emptyState 1 iu0 0).1 ∉ Mem.listUsers sAll 2 :=
  ⟨by decide, (tenant_isolation_of_reads emptyState sAll 1 2 (by decide)).1 iu0 0⟩

/-- C2: campaign creation is all-or-nothing with respect to cross-tenant
references.  The handler succeeds exactly when all four referenced ids
resolve inside the caller's organization; on any invalid reference it
returns an access-denied message naming a reference that is indeed invalid
and leaves the store unchanged; on success it performs exactly the
createCampaign write. -/
theorem createCampaign_allOrNothing (s : MemState) (o u : Nat)
    (d : InsertCampaign) (now : Nat) :
    ((Routes.postCampaign s o u d now).1.toBool = Routes.refsOk s o d)
    ∧ (Routes.refsOk s o d = false →
        (Routes.postCampaign s o u d now).2 = s
        ∧ ∃ msg, (Routes.postCampaign s o u d now).1 = .error msg
            ∧ Routes.namesInvalidRef s o d msg)
    ∧ (Routes.refsOk s o d = true →
        (Routes.postCampaign s o u d now).1 =
          .ok (Mem.createCampaign s o u d now).1
        ∧ (Routes.postCampaign s o u d now).2 =
          (Mem.createCampaign s o u d now).2) := by
  cases hG : Mem.getGroup s d.targetGroupId
  case none =>
    refine ⟨?_, ?_, ?_⟩
    · simp [Routes.postCampaign, Routes.refsOk, Routes.groupRefOk, hG,
        Except.toBool]
    · intro _
      exact ⟨by simp [Routes.postCampaign, hG],
        "Access denied: Invalid target group",
        by simp [Routes.postCampaign, hG],
        Or.inl ⟨rfl, by simp [Routes.groupRefOk, hG]⟩⟩
    · intro hT
      simp [Routes.refsOk, Routes.groupRefOk, hG] at hT
  case some g =>
    by_cases hgo : g.organizationId = o
    case neg =>
      refine ⟨?_, ?_, ?_⟩
      · simp [Routes.postCampaign, Routes.refsOk, Routes.groupRefOk, hG, hgo,
          Except.toBool]
      · intro _
        exact ⟨by simp [Routes.postCampaign, hG, hgo],
          "Access denied: Invalid target group",
          by simp [Routes.postCampaign, hG, hgo],
          Or.inl ⟨rfl, by simp [Routes.groupRefOk, hG, hgo]⟩⟩
      · intro hT
        simp [Routes.refsOk, Routes.groupRefOk, hG, hgo] at hT
    case pos =>
      cases hP : Mem.getSmtpProfile s d.smtpProfileId
      case none =>
        refine ⟨?_, ?_, ?_⟩
        · simp [Routes.postCampaign, Routes.refsOk, Routes.groupRefOk,
            Routes.smtpRefOk, hG, hgo, hP, Except.toBool]
        · intro _
          exact ⟨by simp [Routes.postCampaign, hG, hgo, hP],
            "Access denied: Invalid SMTP profile",
            by simp [Routes.postCampaign, hG, hgo, hP],
            Or.inr (Or.inl ⟨rfl, by simp [Routes.smtpRefOk, hP]⟩)⟩
        · intro hT
          simp [Routes.refsOk, Routes.smtpRefOk, hP] at hT
      case some p =>
        by_cases hpo : p.organizationId = o
        case neg =>
          refine ⟨?_, ?_, ?_⟩
          · simp [Routes.postCampaign, Routes.refsOk, Routes.groupRefOk,
              Routes.smtpRefOk, hG, hgo, hP, hpo, Except.toBool]
          · intro _
            exact ⟨by simp [Routes.postCampaign, hG, hgo, hP, hpo],
              "Access denied: Invalid SMTP profile",
              by simp [Routes.postCampaign, hG, hgo, hP, hpo],
              Or.inr (Or.inl ⟨rfl, by simp [Routes.smtpRefOk, hP, hpo]⟩)⟩
          · intro hT
            simp [Routes.refsOk, Routes.smtpRefOk, hP, hpo] at hT
        case pos =>
          cases hT : Mem.getEmailTemplate s d.emailTemplateId
          case none =>
            refine ⟨?_, ?_, ?_⟩
            · simp [Routes.postCampaign, Routes.refsOk, Routes.groupRefOk,
                Routes.smtpRefOk, Routes.templateRefOk, hG, hgo, hP, hpo, hT,
                Except.toBool]
            · intro _
              exact ⟨by simp [Routes.postCampaign, hG, hgo, hP, hpo, hT],
                "Access denied: Invalid email template",
                by simp [Routes.postCampaign, hG, hgo, hP, hpo, hT],
                Or.inr (Or.inr (Or.inl ⟨rfl,
                  by simp [Routes.templateRefOk, hT]⟩))⟩
            · intro hTT
              simp [Routes.refsOk, Routes.templateRefOk, hT] at hTT
          case some t =>
            by_cases hto : t.organizationId = o
            case neg =>
              refine ⟨?_, ?_, ?_⟩
              · simp [Routes.postCampaign, Routes.refsOk, Routes.groupRefOk,
                  Routes.smtpRefOk, Routes.templateRefOk, hG, hgo, hP, hpo,
                  hT, hto, Except.toBool]
              · intro _
                exact ⟨by simp [Routes.postCampaign, hG, hgo, hP, hpo, hT, hto],
                  "Access denied: Invalid email template",
                  by simp [Routes.postCampaign, hG, hgo, hP, hpo, hT, hto],
                  Or.inr (Or.inr (Or.inl ⟨rfl,
                    by simp [Routes.templateRefOk, hT, hto]⟩))⟩
              · intro hTT
                simp [Routes.refsOk, Routes.templateRefOk, hT, hto] at hTT
            case pos =>
              cases hL : Mem.getLandingPage s d.landingPageId
              case none =>
                refine ⟨?_, ?_, ?_⟩
                · simp [Routes.postCampaign, Routes.refsOk, Routes.groupRefOk,
                    Routes.smtpRefOk, Routes.templateRefOk, Routes.landingRefOk,
                    hG, hgo, hP, hpo, hT, hto, hL, Except.toBool]
                · intro _
                  exact ⟨by simp [Routes.postCampaign, hG, hgo, hP, hpo, hT,
                      hto, hL],
                    "Access denied: Invalid landing page",
                    by simp [Routes.postCampaign, hG, hgo, hP, hpo, hT, hto, hL],
                    Or.inr (Or.inr (Or.inr ⟨rfl,
                      by simp [Routes.landingRefOk, hL]⟩))⟩
                · intro hTT
                  simp [Routes.refsOk, Routes.landingRefOk, hL] at hTT
              case some lp =>
                by_cases hlo : lp.organizationId = o
                case neg =>
                  refine ⟨?_, ?_, ?_⟩
                  · simp [Routes.postCampaign, Routes.refsOk,
                      Routes.groupRefOk, Routes.smtpRefOk,
                      Routes.templateRefOk, Routes.landingRefOk,
                      hG, hgo, hP, hpo, hT, hto, hL, hlo, Except.toBool]
                  · intro _
                    exact ⟨by simp [Routes.postCampaign, hG, hgo, hP, hpo, hT,
                        hto, hL, hlo],
                      "Access denied: Invalid landing page",
                      by simp [Routes.postCampaign, hG, hgo, hP, hpo, hT, hto,
                        hL, hlo],
                      Or.inr (Or.inr (Or.inr ⟨rfl,
                        by simp [Routes.landingRefOk, hL, hlo]⟩))⟩
                  · intro hTT
                    simp [Routes.refsOk, Routes.landingRefOk, hL, hlo] at hTT
                case pos =>
                  refine ⟨?_, ?_, ?_⟩
                  · simp [Routes.postCampaign, Routes.refsOk,
                      Routes.groupRefOk, Routes.smtpRefOk,
                      Routes.templateRefOk, Routes.landingRefOk,
                      hG, hgo, hP, hpo, hT, hto, hL, hlo, Except.toBool]
                  · intro hF
                    simp [Routes.refsOk, Routes.groupRefOk, Routes.smtpRefOk,
                      Routes.templateRefOk, Routes.landingRefOk,
                      hG, hgo, hP, hpo, hT, hto, hL, hlo] at hF
                  · intro _
                    exact ⟨by simp [Routes.postCampaign, hG, hgo, hP, hpo, hT,
                        hto, hL, hlo],
                      by simp [Routes.postCampaign, hG, hgo, hP, hpo, hT, hto,
                        hL, hlo]⟩

/-- Witness for C2: over the empty store the campaign references are
invalid, the request is denied and the store is unchanged. -/
theorem createCampaign_allOrNothing_witness :
    Routes.refsOk emptyState 1 ic0 = false
      ∧ (Routes.postCampaign emptyState 1 1 ic0 0).2 = emptyState :=
  ⟨by decide,
    ((createCampaign_allOrNothing emptyState 1 1 ic0 0).2.1 (by decide)).1⟩

/-! Lemmas about the CSV import loop. -/

/-- The imported count of the loop equals the number of rows that
individually validate, whatever the store and start index. -/
lemma importLoop_imported (o gid now : Nat) (rows : List Routes.Row) :
    ∀ (s : MemState) (idx : Nat),
      (Routes.importLoop o gid now s idx rows).1.1
        = rows.countP Routes.rowValid := by
  induction rows with
  | nil => intro s idx; simp [Routes.importLoop, List.countP_nil]
  | cons row rest ih =>
    intro s idx
    unfold Routes.importLoop
    cases hp : Routes.parseInsertTarget (Routes.normalizeRow row) with
    | ok d =>
      simp only [hp]
      rw [List.countP_cons]
      simp [Routes.rowValid, hp, Except.toBool, ih]
    | error e =>
      simp only [hp]
      rw [List.countP_cons]
      simp [Routes.rowValid, hp, Except.toBool, ih]

/-- The error list of the loop equals the pure per-row error
specification, whatever the store. -/
lemma importLoop_errors (o gid now : Nat) (rows : List Routes.Row) :
    ∀ (s : MemState) (idx : Nat),
      (Routes.importLoop o gid now s idx rows).1.2
        = Routes.rowErrorsSpec idx rows := by
  induction rows with
  | nil => intro s idx; simp [Routes.importLoop, Routes.rowErrorsSpec]
  | cons row rest ih =>
    intro s idx
    unfold Routes.importLoop Routes.rowErrorsSpec
    cases hp : Routes.parseInsertTarget (Routes.normalizeRow row) <;>
      simp [hp, ih]

/-- Every row that validates contributes exactly one target to the store,
regardless of failures among the other rows. -/
lemma importLoop_targets_length (o gid now : Nat) (rows : List Routes.Row) :
    ∀ (s : MemState) (idx : Nat),
      (Routes.importLoop o gid now s idx rows).2.targets.length
        = s.targets.length + rows.countP Routes.rowValid := by
  induction rows with
  | nil => intro s idx; simp [Routes.importLoop]
  | cons row rest ih =>
    intro s idx
    unfold Routes.importLoop
    cases hp : Routes.parseInsertTarget (Routes.normalizeRow row) with
    | ok d =>
      simp only [hp]
      rw [List.countP_cons]
      have hc : ((Mem.createTarget s o gid d now).2).targets.length
          = s.targets.length + 1 := by
        simp [Mem.createTarget]
      simp [ih, hc, Routes.rowValid, hp, Except.toBool]
      omega
    | error e =>
      simp only [hp]
      rw [List.countP_cons]
      simp [ih, Routes.rowValid, hp, Except.toBool]

/-- Every recorded row error points at a data row that indeed fails
validation, at row number data index plus two. -/
lemma rowErrorsSpec_mem (rows : List Routes.Row) :
    ∀ (idx : Nat) (e : Routes.RowError), e ∈ Routes.rowErrorsSpec idx rows →
      ∃ i, i < rows.length ∧ e.row = idx + i + 2
        ∧ Routes.parseInsertTarget (Routes.normalizeRow (rows.getD i []))
            = .error e.error := by
  induction rows with
  | nil => intro idx e h; simp [Routes.rowErrorsSpec] at h
  | cons row rest ih =>
    intro idx e h
    unfold Routes.rowErrorsSpec at h
    cases hp : Routes.parseInsertTarget (Routes.normalizeRow row) <;>
      simp only [hp] at h
    case ok d =>
      obtain ⟨i, hi, hrow, hparse⟩ := ih (idx + 1) e h
      refine ⟨i + 1, by simpa using hi, by omega, by simpa using hparse⟩
    case error err =>
      rcases List.mem_cons.mp h with h1 | h2
      · subst h1
        exact ⟨0, by simp, by simp, by simpa using hp⟩
      · obtain ⟨i, hi, hrow, hparse⟩ := ih (idx + 1) e h2
        refine ⟨i + 1, by simpa using hi, by omega, by simpa using hparse⟩

/-- Every failing data row is represented in the error list, at row number
data index plus two. -/
lemma rowErrorsSpec_cover (rows : List Routes.Row) :
    ∀ (idx i : Nat), i < rows.length →
      Routes.rowValid (rows.getD i []) = false →
      ∃ e ∈ Routes.rowErrorsSpec idx rows, e.row = idx + i + 2 := by
  induction rows with
  | nil => intro idx i h; simp at h
  | cons row rest ih =>
    intro idx i hi hv
    unfold Routes.rowErrorsSpec
    cases i with
    | zero =>
      cases hp : Routes.parseInsertTarget (Routes.normalizeRow row) with
      | ok d =>
        exfalso
        have hv0 : Routes.rowValid row = false := by simpa using hv
        simp [Routes.rowValid, hp, Except.toBool] at hv0
      | error err =>
        simp only [hp]
        exact ⟨{ row := idx + 2, error := err }, List.mem_cons_self _ _,
          by simp⟩
    | succ j =>
      have hj : j < rest.length := by simpa using hi
      have hv2 : Routes.rowValid (rest.getD j []) = false := by simpa using hv
      obtain ⟨e, he, hrow⟩ := ih (idx + 1) j hj hv2
      cases hp : Routes.parseInsertTarget (Routes.normalizeRow row) <;>
        simp only [hp]
      · exact ⟨e, List.mem_cons_of_mem _ he, by omega⟩
      · exact ⟨e, he, by omega⟩

/-- The error list is empty exactly when every data row validates. -/
lemma rowErrorsSpec_nil_iff (rows : List Routes.Row) :
    ∀ idx, (Routes.rowErrorsSpec idx rows = []
      ↔ ∀ r ∈ rows, Routes.rowValid r = true) := by
  induction rows with
  | nil => intro idx; simp [Routes.rowErrorsSpec]
  | cons row rest ih =>
    intro idx
    unfold Routes.rowErrorsSpec
    cases hp : Routes.parseInsertTarget (Routes.normalizeRow row) with
    | ok d =>
      simp only [hp]
      rw [ih (idx + 1)]
      constructor
      · intro hall r hr
        rcases List.mem_cons.mp hr with h1 | h2
        · subst h1; simp [Routes.rowValid, hp, Except.toBool]
        · exact hall r h2
      · intro hall r hr
        exact hall r (List.mem_cons_of_mem _ hr)
    | error err =>
      simp only [hp]
      refine iff_of_false (by simp) ?_
      intro hall
      have hv := hall row (List.mem_cons_self _ _)
      simp [Routes.rowValid, hp, Except.toBool] at hv

/-- C3: per-row fault isolation of the CSV import.  With a valid group and
a clean parse, the response reports as imported exactly the number of rows
that individually validate, as failed the length of the error list, omits
the error list when it is empty; each error entry names a failing row at
data index plus two, every failing row is so represented, and each
validating row creates a target even when other rows fail. -/
theorem csv_import_per_row_isolation (s : MemState) (o gid now : Nat)
    (p : Routes.ParseResult) (g : Group)
    (h1 : Mem.getGroup s gid = some g) (h2 : g.organizationId = o)
    (h3 : p.errors = []) :
    (Routes.importTargets s o gid p now).1 =
      Routes.ImportResponse.ok (p.data.countP Routes.rowValid)
        (Routes.rowErrorsSpec 0 p.data).length
        (if (Routes.rowErrorsSpec 0 p.data).isEmpty then none
         else some (Routes.rowErrorsSpec 0 p.data))
    ∧ (Routes.importTargets s o gid p now).2.targets.length
        = s.targets.length + p.data.countP Routes.rowValid
    ∧ (∀ e ∈ Routes.rowErrorsSpec 0 p.data, ∃ i, i < p.data.length
        ∧ e.row = i + 2
        ∧ Routes.parseInsertTarget (Routes.normalizeRow (p.data.getD i []))
            = .error e.error)
    ∧ (∀ i, i < p.data.length → Routes.rowValid (p.data.getD i []) = false →
        ∃ e ∈ Routes.rowErrorsSpec 0 p.data, e.row = i + 2)
    ∧ (Routes.rowErrorsSpec 0 p.data = []
        ↔ ∀ r ∈ p.data, Routes.rowValid r = true) := by
  refine ⟨?_, ?_, ?_, ?_, rowErrorsSpec_nil_iff p.data 0⟩
  · unfold Routes.importTargets
    rw [h1]
    simp [h2, h3, importLoop_imported, importLoop_errors]
  · unfold Routes.importTargets
    rw [h1]
    simp [h2, h3, importLoop_targets_length]
  · intro e he
    obtain ⟨i, hi, hrow, hparse⟩ := rowErrorsSpec_mem p.data 0 e he
    exact ⟨i, hi, by omega, hparse⟩
  · intro i hi hv
    obtain ⟨e, he, hrow⟩ := rowErrorsSpec_cover p.data 0 i hi hv
    exact ⟨e, he, by omega⟩

/-- Witness for C3: the two-row example import produces the response
computed by the per-row specification. -/
theorem csv_import_per_row_isolation_witness :
    (Routes.importTargets sG 1 2 p5 0).1 =
      Routes.ImportResponse.ok (p5.data.countP Routes.rowValid)
        (Routes.rowErrorsSpec 0 p5.data).length
        (if (Routes.rowErrorsSpec 0 p5.data).isEmpty then none
         else some (Routes.rowErrorsSpec 0 p5.data)) :=
  (csv_import_per_row_isolation sG 1 2 0 p5 g1 (by decide) (by decide)
    (by decide)).1

/-- C4: a CSV with parser-reported row errors fails the whole request with
the parse-level validation error, before any row is imported: the store is
returned unchanged. -/
theorem malformed_csv_rejected (s : MemState) (o gid now : Nat)
    (p : Routes.ParseResult) (g : Group)
    (h1 : Mem.getGroup s gid = some g) (h2 : g.organizationId = o)
    (h3 : p.errors ≠ []) :
    Routes.importTargets s o gid p now = (.parseFailed p.errors, s) := by
  unfold Routes.importTargets
  rw [h1]
  simp [h2, h3]

/-- Witness for C4: a parse result with one parser error is rejected whole
over the one-group store. -/
theorem malformed_csv_rejected_witness :
    Routes.importTargets sG 1 2 pBad 0 = (.parseFailed pBad.errors, sG) :=
  malformed_csv_rejected sG 1 2 0 pBad g1 (by decide) (by decide) (by decide)


/-- C5 counterexample: for the two-row example CSV the single error entry
reads only the missing lastName; the empty email passes the insert schema,
which puts no format or non-emptiness constraint on the email column, so
no error mentioning email is reported, contrary to the claim. -/
theorem csv_import_example_counterexample :
    (Routes.importTargets sG 1 2 p5 0).1 =
      Routes.ImportResponse.ok 1 1
        (some [{ row := 3, error := ["lastName"] }])
    ∧ ∀ e ∈ [Routes.RowError.mk 3 ["lastName"]],
        ("email" : String) ∉ e.error := by
  refine ⟨by decide, by decide⟩

/-- C5 amended: the two-row example import yields imported 1 and failed 1,
with the single error entry at the second data row (row number 3) whose
error mentions the missing lastName; the empty email raises no error
because the insert schema does not validate email format. -/
theorem csv_import_example_amended :
    (Routes.importTargets sG 1 2 p5 0).1 =
      Routes.ImportResponse.ok 1 1
        (some [{ row := 3, error := ["lastName"] }])
    ∧ ("lastName" : String) ∈ (Routes.RowError.mk 3 ["lastName"]).error := by
  refine ⟨by decide, by decide⟩


/-- C7: cascading deletion.  deleteGroup leaves no target of the group and
no group with the id while preserving unrelated targets; deleteCampaign
leaves no result of the campaign and no campaign with the id while
preserving unrelated results; deleting an organization under the schema's
cascade rules leaves no row of the organization in any table, no target of
a removed group, and no result of a removed campaign or removed target. -/
theorem cascading_deletion (s : MemState) (gid cid oid : Nat) :
    (∀ t ∈ (Mem.deleteGroup s gid).2.targets, t.groupId ≠ gid)
    ∧ (∀ g ∈ (Mem.deleteGroup s gid).2.groups, g.id ≠ gid)
    ∧ (∀ t ∈ s.targets, t.groupId ≠ gid → t ∈ (Mem.deleteGroup s gid).2.targets)
    ∧ (∀ r ∈ (Mem.deleteCampaign s cid).2.campaignResults, r.campaignId ≠ cid)
    ∧ (∀ c ∈ (Mem.deleteCampaign s cid).2.campaigns, c.id ≠ cid)
    ∧ (∀ r ∈ s.campaignResults, r.campaignId ≠ cid →
        r ∈ (Mem.deleteCampaign s cid).2.campaignResults)
    ∧ (∀ o ∈ (Db.deleteOrganization s oid).organizations, o.id ≠ oid)
    ∧ (∀ u ∈ (Db.deleteOrganization s oid).users, u.organizationId ≠ oid)
    ∧ (∀ g ∈ (Db.deleteOrganization s oid).groups, g.organizationId ≠ oid)
    ∧ (∀ p ∈ (Db.deleteOrganization s oid).smtpProfiles,
        p.organizationId ≠ oid)
    ∧ (∀ t ∈ (Db.deleteOrganization s oid).emailTemplates,
        t.organizationId ≠ oid)
    ∧ (∀ p ∈ (Db.deleteOrganization s oid).landingPages,
        p.organizationId ≠ oid)
    ∧ (∀ c ∈ (Db.deleteOrganization s oid).campaigns, c.organizationId ≠ oid)
    ∧ (∀ t ∈ (Db.deleteOrganization s oid).targets, t.organizationId ≠ oid
        ∧ ∀ g ∈ s.groups, g.organizationId = oid → t.groupId ≠ g.id)
    ∧ (∀ r ∈ (Db.deleteOrganization s oid).campaignResults,
        r.organizationId ≠ oid
        ∧ (∀ c ∈ s.campaigns, c.organizationId = oid → r.campaignId ≠ c.id)) := by
  refine ⟨?_, ?_, ?_, ?_, ?_, ?_, ?_, ?_, ?_, ?_, ?_, ?_, ?_, ?_, ?_⟩
  · intro t ht
    have h2 := (List.mem_filter.mp ht).2
    simpa using h2
  · intro g hg
    have h2 := (List.mem_filter.mp hg).2
    simpa using h2
  · intro t ht hne
    exact List.mem_filter.mpr ⟨ht, by simpa using hne⟩
  · intro r hr
    have h2 := (List.mem_filter.mp hr).2
    simpa using h2
  · intro c hc
    have h2 := (List.mem_filter.mp hc).2
    simpa using h2
  · intro r hr hne
    exact List.mem_filter.mpr ⟨hr, by simpa using hne⟩
  · intro o ho
    have h2 := (List.mem_filter.mp ho).2
    simpa using h2
  · intro u hu
    have h2 := (List.mem_filter.mp hu).2
    simpa using h2
  · intro g hg
    have h2 := (List.mem_filter.mp hg).2
    simpa using h2
  · intro p hp
    have h2 := (List.mem_filter.mp hp).2
    simpa using h2
  · intro t ht
    have h2 := (List.mem_filter.mp ht).2
    simpa using h2
  · intro p hp
    have h2 := (List.mem_filter.mp hp).2
    simpa using h2
  · intro c hc
    have h2 := (List.mem_filter.mp hc).2
    simpa using h2
  · intro t ht
    have h2 := (List.mem_filter.mp ht).2
    simp only [Bool.not_eq_true'] at h2
    rw [Bool.or_eq_false_iff] at h2
    refine ⟨by simpa using h2.1, ?_⟩
    intro g hg hgo hne
    have h3 := h2.2
    rw [List.any_eq_false] at h3
    exact absurd (by simp [hne] : (fun x => x.id == t.groupId) g = true)
      (by simpa using h3 g (List.mem_filter.mpr ⟨hg, by simp [hgo]⟩))
  · intro r hr
    have h2 := (List.mem_filter.mp hr).2
    simp only [Bool.not_eq_true'] at h2
    rw [Bool.or_eq_false_iff, Bool.or_eq_false_iff] at h2
    refine ⟨by simpa using h2.1.1, ?_⟩
    intro c hc hco hne
    have h3 := h2.1.2
    rw [List.any_eq_false] at h3
    exact absurd (by simp [hne] : (fun x => x.id == r.campaignId) c = true)
      (by simpa using h3 c (List.mem_filter.mpr ⟨hc, by simp [hco]⟩))

/-- Witness for C7: a target of a surviving group is retained when an
unrelated group id is deleted. -/
theorem cascading_deletion_witness :
    t1 ∈ (Mem.deleteGroup sAll 99).2.targets :=
  (cascading_deletion sAll 99 7 1).2.2.1 t1 (by decide) (by decide)


/-- C8: listGroups augments each returned group with a targetCount equal to
the number of targets whose groupId matches the group's id in the store at
the time of the call, and returns exactly the organization's groups. -/
theorem listGroups_targetCount (s : MemState) (o : Nat) :
    (∀ x ∈ Mem.listGroups s o,
      x.targetCount
          = (s.targets.filter (fun t => t.groupId == x.group.id)).length
        ∧ x.group ∈ s.groups ∧ x.group.organizationId = o)
    ∧ (∀ g ∈ s.groups, g.organizationId = o →
      ({ group := g
         targetCount :=
           (s.targets.filter (fun t => t.groupId == g.id)).length } :
          Mem.GroupWithCount) ∈ Mem.listGroups s o) := by
  constructor
  · intro x hx
    unfold Mem.listGroups at hx
    obtain ⟨g, hg, hxe⟩ := List.mem_map.mp hx
    have hgm := List.mem_filter.mp hg
    rw [← hxe]
    exact ⟨rfl, hgm.1, by simpa using hgm.2⟩
  · intro g hg ho
    unfold Mem.listGroups
    exact List.mem_map.mpr ⟨g, List.mem_filter.mpr ⟨hg, by simp [ho]⟩, rfl⟩

/-- Witness for C8: the group holding three targets is listed with
targetCount three. -/
theorem listGroups_targetCount_witness :
    ({ group := g1, targetCount := 3 } : Mem.GroupWithCount)
      ∈ Mem.listGroups s3 1 := by
  have h := (listGroups_targetCount s3 1).2 g1 (by decide) (by decide)
  have h3 : (s3.targets.filter (fun t => t.groupId == g1.id)).length = 3 := by
    decide
  rw [h3] at h
  exact h


/-- Option.getD satisfies the presence semantics of a partial field. -/
lemma overrides_getD {α : Type} (dv : Option α) (old : α) :
    overrides dv old (dv.getD old) :=
  ⟨fun h => by simp [h], fun v h => by simp [h]⟩

/-- The user merge satisfies the user frame property. -/
lemma frame_mergeUser (u : User) (d : PartialUser) (now : Nat) :
    frameUser u d now (mergeUser u d now) :=
  ⟨overrides_getD _ _, overrides_getD _ _, overrides_getD _ _,
   overrides_getD _ _, overrides_getD _ _, overrides_getD _ _,
   overrides_getD _ _, overrides_getD _ _, overrides_getD _ _, rfl⟩

/-- The group merge satisfies the group frame property. -/
lemma frame_mergeGroup (g : Group) (d : PartialGroup) (now : Nat) :
    frameGroup g d now (mergeGroup g d now) :=
  ⟨overrides_getD _ _, overrides_getD _ _, overrides_getD _ _,
   overrides_getD _ _, overrides_getD _ _, rfl⟩

/-- The target merge satisfies the target frame property. -/
lemma frame_mergeTarget (t : Target) (d : PartialTarget) (now : Nat) :
    frameTarget t d now (mergeTarget t d now) :=
  ⟨overrides_getD _ _, overrides_getD _ _, overrides_getD _ _,
   overrides_getD _ _, overrides_getD _ _, overrides_getD _ _,
   overrides_getD _ _, overrides_getD _ _, rfl⟩

/-- The SMTP profile merge satisfies its frame property. -/
lemma frame_mergeSmtpProfile (p : SmtpProfile) (d : PartialSmtpProfile)
    (now : Nat) : frameSmtpProfile p d now (mergeSmtpProfile p d now) :=
  ⟨overrides_getD _ _, overrides_getD _ _, overrides_getD _ _,
   overrides_getD _ _, overrides_getD _ _, overrides_getD _ _,
   overrides_getD _ _, overrides_getD _ _, overrides_getD _ _,
   overrides_getD _ _, rfl⟩

/-- The email template merge satisfies its frame property. -/
lemma frame_mergeEmailTemplate (t : EmailTemplate) (d : PartialEmailTemplate)
    (now : Nat) : frameEmailTemplate t d now (mergeEmailTemplate t d now) :=
  ⟨overrides_getD _ _, overrides_getD _ _, overrides_getD _ _,
   overrides_getD _ _, overrides_getD _ _, overrides_getD _ _,
   overrides_getD _ _, overrides_getD _ _, overrides_getD _ _,
   overrides_getD _ _, rfl⟩

/-- The landing page merge satisfies its frame property. -/
lemma frame_mergeLandingPage (p : LandingPage) (d : PartialLandingPage)
    (now : Nat) : frameLandingPage p d now (mergeLandingPage p d now) :=
  ⟨overrides_getD _ _, overrides_getD _ _, overrides_getD _ _,
   overrides_getD _ _, overrides_getD _ _, overrides_getD _ _,
   overrides_getD _ _, overrides_getD _ _, overrides_getD _ _,
   overrides_getD _ _, rfl⟩

/-- The campaign merge satisfies its frame property. -/
lemma frame_mergeCampaign (c : Campaign) (d : PartialCampaign) (now : Nat) :
    frameCampaign c d now (mergeCampaign c d now) :=
  ⟨overrides_getD _ _, overrides_getD _ _, overrides_getD _ _,
   overrides_getD _ _, overrides_getD _ _, overrides_getD _ _,
   overrides_getD _ _, overrides_getD _ _, overrides_getD _ _,
   overrides_getD _ _, overrides_getD _ _, overrides_getD _ _, rfl⟩

/-- The campaign result merge satisfies its frame property. -/
lemma frame_mergeCampaignResult (cr : CampaignResult)
    (d : PartialCampaignResult) (now : Nat) :
    frameCampaignResult cr d now (mergeCampaignResult cr d now) :=
  ⟨overrides_getD _ _, overrides_getD _ _, overrides_getD _ _,
   overrides_getD _ _, overrides_getD _ _, overrides_getD _ _,
   overrides_getD _ _, overrides_getD _ _, overrides_getD _ _,
   overrides_getD _ _, overrides_getD _ _, overrides_getD _ _,
   overrides_getD _ _, overrides_getD _ _, rfl⟩

/-- C9: every successful update stamps updatedAt with the call time, which
strictly exceeds the prior stamp whenever the clock has advanced past it,
for all eight update operations. -/
theorem update_advances_updatedAt (s : MemState) (now : Nat) :
    (∀ id d u, Mem.getUser s id = some u → u.updatedAt < now →
      ∃ r, (Mem.updateUser s id d now).1 = some r
        ∧ u.updatedAt < r.updatedAt ∧ r.updatedAt = now)
    ∧ (∀ id d g, Mem.getGroup s id = some g → g.updatedAt < now →
      ∃ r, (Mem.updateGroup s id d now).1 = some r
        ∧ g.updatedAt < r.updatedAt ∧ r.updatedAt = now)
    ∧ (∀ id d t, Mem.getTarget s id = some t → t.updatedAt < now →
      ∃ r, (Mem.updateTarget s id d now).1 = some r
        ∧ t.updatedAt < r.updatedAt ∧ r.updatedAt = now)
    ∧ (∀ id d p, Mem.getSmtpProfile s id = some p → p.updatedAt < now →
      ∃ r, (Mem.updateSmtpProfile s id d now).1 = some r
        ∧ p.updatedAt < r.updatedAt ∧ r.updatedAt = now)
    ∧ (∀ id d t, Mem.getEmailTemplate s id = some t → t.updatedAt < now →
      ∃ r, (Mem.updateEmailTemplate s id d now).1 = some r
        ∧ t.updatedAt < r.updatedAt ∧ r.updatedAt = now)
    ∧ (∀ id d p, Mem.getLandingPage s id = some p → p.updatedAt < now →
      ∃ r, (Mem.updateLandingPage s id d now).1 = some r
        ∧ p.updatedAt < r.updatedAt ∧ r.updatedAt = now)
    ∧ (∀ id d c, Mem.getCampaign s id = some c → c.updatedAt < now →
      ∃ r, (Mem.updateCampaign s id d now).1 = some r
        ∧ c.updatedAt < r.updatedAt ∧ r.updatedAt = now)
    ∧ (∀ id d cr, Mem.getCampaignResult s id = some cr → cr.updatedAt < now →
      ∃ r, (Mem.updateCampaignResult s id d now).1 = some r
        ∧ cr.updatedAt < r.updatedAt ∧ r.updatedAt = now) := by
  refine ⟨?_, ?_, ?_, ?_, ?_, ?_, ?_, ?_⟩
  · intro id d u h hlt
    exact ⟨mergeUser u d now, by simp [Mem.updateUser, h], hlt, rfl⟩
  · intro id d g h hlt
    exact ⟨mergeGroup g d now, by simp [Mem.updateGroup, h], hlt, rfl⟩
  · intro id d t h hlt
    exact ⟨mergeTarget t d now, by simp [Mem.updateTarget, h], hlt, rfl⟩
  · intro id d p h hlt
    exact ⟨mergeSmtpProfile p d now, by simp [Mem.updateSmtpProfile, h],
      hlt, rfl⟩
  · intro id d t h hlt
    exact ⟨mergeEmailTemplate t d now, by simp [Mem.updateEmailTemplate, h],
      hlt, rfl⟩
  · intro id d p h hlt
    exact ⟨mergeLandingPage p d now, by simp [Mem.updateLandingPage, h],
      hlt, rfl⟩
  · intro id d c h hlt
    exact ⟨mergeCampaign c d now, by simp [Mem.updateCampaign, h], hlt, rfl⟩
  · intro id d cr h hlt
    exact ⟨mergeCampaignResult cr d now,
      by simp [Mem.updateCampaignResult, h], hlt, rfl⟩

/-- Witness for C9: updating the stored group at time 5 advances its stamp
strictly beyond the prior value 0. -/
theorem update_advances_updatedAt_witness :
    ∃ r, (Mem.updateGroup sAll 2 d999 5).1 = some r
      ∧ g1.updatedAt < r.updatedAt ∧ r.updatedAt = 5 :=
  (update_advances_updatedAt sAll 5).2.1 2 d999 g1 (by decide) (by decide)

/-- C10 counterexample: the stored entity does not agree with the partial
data on a supplied updatedAt field; the update overwrites it with the call
time instead. -/
theorem update_frame_property_counterexample :
    (Mem.updateGroup sAll 2 d999 5).1 = some (mergeGroup g1 d999 5)
    ∧ d999.updatedAt = some 999
    ∧ (mergeGroup g1 d999 5).updatedAt ≠ 999 := by
  refine ⟨by decide, rfl, by decide⟩

/-- C10 amended: for every update operation applied to an existing id, the
result agrees with the prior entity on every field absent from the partial
data and with the partial data on every present field — including id and
organizationId — except updatedAt, which is always stamped with the call
time even when the partial data supplies it. -/
theorem update_frame_property (s : MemState) (now : Nat) :
    (∀ id d u, Mem.getUser s id = some u →
      ∃ r, (Mem.updateUser s id d now).1 = some r ∧ frameUser u d now r)
    ∧ (∀ id d g, Mem.getGroup s id = some g →
      ∃ r, (Mem.updateGroup s id d now).1 = some r ∧ frameGroup g d now r)
    ∧ (∀ id d t, Mem.getTarget s id = some t →
      ∃ r, (Mem.updateTarget s id d now).1 = some r ∧ frameTarget t d now r)
    ∧ (∀ id d p, Mem.getSmtpProfile s id = some p →
      ∃ r, (Mem.updateSmtpProfile s id d now).1 = some r
        ∧ frameSmtpProfile p d now r)
    ∧ (∀ id d t, Mem.getEmailTemplate s id = some t →
      ∃ r, (Mem.updateEmailTemplate s id d now).1 = some r
        ∧ frameEmailTemplate t d now r)
    ∧ (∀ id d p, Mem.getLandingPage s id = some p →
      ∃ r, (Mem.updateLandingPage s id d now).1 = some r
        ∧ frameLandingPage p d now r)
    ∧ (∀ id d c, Mem.getCampaign s id = some c →
      ∃ r, (Mem.updateCampaign s id d now).1 = some r
        ∧ frameCampaign c d now r)
    ∧ (∀ id d cr, Mem.getCampaignResult s id = some cr →
      ∃ r, (Mem.updateCampaignResult s id d now).1 = some r
        ∧ frameCampaignResult cr d now r) := by
  refine ⟨?_, ?_, ?_, ?_, ?_, ?_, ?_, ?_⟩
  · intro id d u h
    exact ⟨mergeUser u d now, by simp [Mem.updateUser, h],
      frame_mergeUser u d now⟩
  · intro id d g h
    exact ⟨mergeGroup g d now, by simp [Mem.updateGroup, h],
      frame_mergeGroup g d now⟩
  · intro id d t h
    exact ⟨mergeTarget t d now, by simp [Mem.updateTarget, h],
      frame_mergeTarget t d now⟩
  · intro id d p h
    exact ⟨mergeSmtpProfile p d now, by simp [Mem.updateSmtpProfile, h],
      frame_mergeSmtpProfile p d now⟩
  · intro id d t h
    exact ⟨mergeEmailTemplate t d now, by simp [Mem.updateEmailTemplate, h],
      frame_mergeEmailTemplate t d now⟩
  · intro id d p h
    exact ⟨mergeLandingPage p d now, by simp [Mem.updateLandingPage, h],
      frame_mergeLandingPage p d now⟩
  · intro id d c h
    exact ⟨mergeCampaign c d now, by simp [Mem.updateCampaign, h],
      frame_mergeCampaign c d now⟩
  · intro id d cr h
    exact ⟨mergeCampaignResult cr d now,
      by simp [Mem.updateCampaignResult, h],
      frame_mergeCampaignResult cr d now⟩

/-- Witness for C10 amended: the group update at the stored id yields an
entity satisfying the group frame property. -/
theorem update_frame_property_witness :
    ∃ r, (Mem.updateGroup sAll 2 d999 5).1 = some r
      ∧ frameGroup g1 d999 5 r :=
  (update_frame_property sAll 5).2.1 2 d999 g1 (by decide)

end PhishNet
